import Mathlib

/-!
Verification of the database readiness pipeline in scripts/check-db.js.

The script is a linear pipeline of checks run before deployment:
checkEnv, checkConnection, checkDatabaseVersion, checkV1Tables,
fixMigrationState, applyMigration, driven by a loop that catches errors,
disconnects the database client in a finally block after each step, and
exits with code 1 on the first failure.

The shallow embedding below models the database as an explicit state
(the set of columns of the schema plus the rows of the _prisma_migrations
ledger), each raw SQL statement as a pure state transformation, and each
fallible operation as an Except value.  Injected I/O faults (a statement
rejecting with a given message) are supplied through explicit environment
records, so that the try/catch structure of the script becomes a total
function on states and environments.
-/

namespace CheckDb

/-- A row of the _prisma_migrations ledger table.  Timestamps are encoded
as natural numbers whose order agrees with chronological order (concrete
examples use the yyyymmdd encoding).  Nullable columns are Option. -/
structure MigrationRecord where
  id : String
  checksum : String
  migration_name : String
  started_at : Nat
  finished_at : Option Nat
  rolled_back_at : Option Nat
  applied_steps_count : Int
  logs : String
deriving DecidableEq

/-- The visible database state: the columns present in the schema, as
pairs of table name and column name, and the rows of the migrations
ledger. -/
structure DbState where
  columns : List (String × String)
  migrations : List MigrationRecord
deriving DecidableEq

/-- The migration identity hard-coded in fixMigrationState. -/
def targetMigration : String := "09_update_hostname_region"

/-- The checksum literal inserted by fixMigrationState. -/
def targetChecksum : String :=
  "e94d9993b17ac5c330ae3f872fd5869fb8095a3f3a7d31d2aaade73dc45fbe9c"

/-- Embeds the predicate of line 112 of check-db.js: a ledger record is
valid-applied when m.finished_at is truthy, m.applied_steps_count > 0 and
m.rolled_back_at is falsy.  Prisma returns Date objects, which are always
truthy, for non-null timestamps, so truthiness is Option.isSome. -/
def validApplied (m : MigrationRecord) : Bool :=
  m.finished_at.isSome && decide (0 < m.applied_steps_count) && m.rolled_back_at.isNone

/-- Embeds the information_schema query of lines 100 to 106: does the
hostname column exist on the website_event table. -/
def hostnameColumnExists (s : DbState) : Bool :=
  s.columns.contains ("website_event", "hostname")

/-- The ledger rows whose migration_name matches the target identity, in
ledger order. -/
def targetRecords (s : DbState) : List MigrationRecord :=
  s.migrations.filter (fun m => m.migration_name == targetMigration)

/-- Insertion step of the descending-by-started_at sort. -/
def insertDesc (m : MigrationRecord) : List MigrationRecord → List MigrationRecord
  | [] => [m]
  | x :: xs => if x.started_at ≤ m.started_at then m :: x :: xs else x :: insertDesc m xs

/-- Sorts ledger rows by started_at, newest first, modelling ORDER BY
started_at DESC. -/
def sortByStartedDesc (l : List MigrationRecord) : List MigrationRecord :=
  l.foldr insertDesc []

/-- Embeds the SELECT of lines 90 to 94: all ledger rows for the target
migration, ordered by started_at descending. -/
def existingMigrations (s : DbState) : List MigrationRecord :=
  sortByStartedDesc (targetRecords s)

/-- Embeds the DELETE of lines 124 to 127 and 178 to 181: remove every
ledger row whose migration_name is the target identity. -/
def deleteTarget (s : DbState) : DbState :=
  { s with migrations := s.migrations.filter (fun m => !(m.migration_name == targetMigration)) }

/-- The row built by the INSERT of lines 145 to 165: fresh id, the fixed
checksum, NOW() timestamps, empty logs, null rolled_back_at and
applied_steps_count 1. -/
def newMigrationRecord (newId : String) (now : Nat) : MigrationRecord :=
  { id := newId
    checksum := targetChecksum
    migration_name := targetMigration
    started_at := now
    finished_at := some now
    rolled_back_at := none
    applied_steps_count := 1
    logs := "" }

/-- Embeds the INSERT of lines 145 to 165: append the fresh valid-applied
row to the ledger. -/
def insertTarget (newId : String) (now : Nat) (s : DbState) : DbState :=
  { s with migrations := s.migrations ++ [newMigrationRecord newId now] }

/-- Embeds the ALTER TABLE of lines 134 to 137: add the hostname column
to website_event. -/
def addHostnameColumn (s : DbState) : DbState :=
  { s with columns := s.columns ++ [("website_event", "hostname")] }

/-- Does pat occur at the head of the character list. -/
def beginsWith : List Char → List Char → Bool
  | [], _ => true
  | _ :: _, [] => false
  | p :: ps, c :: cs => p == c && beginsWith ps cs

/-- Does pat occur contiguously anywhere in the character list. -/
def containsSeq (pat : List Char) : List Char → Bool
  | [] => beginsWith pat []
  | c :: cs => beginsWith pat (c :: cs) || containsSeq pat cs

/-- Embeds the JavaScript String.prototype.includes test used on error
messages at line 174. -/
def jsIncludes (s pat : String) : Bool :=
  containsSeq pat.data s.data

/-- Fault-injection environment for one call of fixMigrationState: for
each raw SQL statement of the function, none means the statement
succeeds against the current state and some msg means the database driver
rejects it with an error whose message is msg.  A rejected statement does
not change the state.  newId and now supply the values of
gen_random_uuid() and NOW() used by the INSERT statements. -/
structure FixEnv where
  q1 : Option String
  q2 : Option String
  del1 : Option String
  alter : Option String
  ins1 : Option String
  del2 : Option String
  ins2 : Option String
  newId : String
  now : Nat
deriving DecidableEq

/-- The message of the TypeError raised at line 197 of check-db.js: the
catch parameter of line 170, named error, shadows the logging helper
error of line 29, so the call error(...) inside the catch block of line
196 invokes an Error object and raises a TypeError instead of reaching
the return false below it. -/
def shadowedErrorCallMessage : String := "error is not a function"

/-- Embeds the catch handler of lines 170 to 206.  An error whose message
contains already exists or duplicate column triggers the recovery branch
of lines 176 to 200: DELETE the target rows again, INSERT the fresh row,
and return true; when either recovery statement fails, control reaches
the shadowed call error(...) of line 197, which raises a TypeError that
propagates out of the function.  Any other message reaches line 205 and
returns false. -/
def fixCatch (env : FixEnv) (s : DbState) (msg : String) : DbState × Except String Bool :=
  if jsIncludes msg "already exists" || jsIncludes msg "duplicate column" then
    match env.del2 with
    | some _ => (s, Except.error shadowedErrorCallMessage)
    | none =>
      match env.ins2 with
      | some _ => (deleteTarget s, Except.error shadowedErrorCallMessage)
      | none => (insertTarget env.newId env.now (deleteTarget s), Except.ok true)
  else
    (s, Except.ok false)

/-- Embeds step 6 of fixMigrationState, lines 144 to 169: INSERT the
fresh valid-applied row and return true. -/
def fixInsertStep (env : FixEnv) (s : DbState) : DbState × Except String Bool :=
  match env.ins1 with
  | some m => fixCatch env s m
  | none => (insertTarget env.newId env.now s, Except.ok true)

/-- Embeds step 5 of fixMigrationState, lines 131 to 141: when the column
was observed absent, ALTER TABLE to add it, then fall through to the
INSERT step. -/
def fixAlterStep (env : FixEnv) (s : DbState) (colExists : Bool) : DbState × Except String Bool :=
  if colExists then fixInsertStep env s
  else
    match env.alter with
    | some m => fixCatch env s m
    | none => fixInsertStep env (addHostnameColumn s)

/-- Embeds step 4 of fixMigrationState, lines 121 to 129: when any ledger
rows exist for the target identity, DELETE them all, then fall through to
the ALTER step. -/
def fixClearStep (env : FixEnv) (s : DbState) (existing : List MigrationRecord)
    (colExists : Bool) : DbState × Except String Bool :=
  if 0 < existing.length then
    match env.del1 with
    | some m => fixCatch env s m
    | none => fixAlterStep env (deleteTarget s) colExists
  else fixAlterStep env s colExists

/-- Embeds fixMigrationState, lines 84 to 207 of check-db.js.  The result
is the final database state paired with Except.ok b when the function
returns the boolean b and Except.error msg when it raises an error with
message msg. -/
def fixMigrationState (env : FixEnv) (s : DbState) : DbState × Except String Bool :=
  match env.q1 with
  | some m => fixCatch env s m
  | none =>
    match env.q2 with
    | some m => fixCatch env s m
    | none =>
      let existing := existingMigrations s
      let colExists := hostnameColumnExists s
      let hasValidMigration := existing.any validApplied
      if colExists && hasValidMigration then (s, Except.ok true)
      else fixClearStep env s existing colExists

/-- Embeds url.split at the colon character, taking the first piece: the
characters of the string strictly before the first colon, or the whole
string when it has no colon. -/
def schemeOf (s : String) : String :=
  ⟨s.data.takeWhile (fun c => c != ':')⟩

/-- Embeds getDatabaseType, lines 13 to 21 of check-db.js: the scheme of
the connection url, with postgres normalized to postgresql. -/
def getDatabaseType (url : String) : String :=
  let type := schemeOf url
  if type == "postgres" then "postgresql" else type

/-- A parsed semantic version, major.minor.patch. -/
structure SemVer where
  major : Nat
  minor : Nat
  patch : Nat
deriving DecidableEq

/-- Modelled from the spec: the strict order of the external semver
library on plain major.minor.patch versions, which is lexicographic on
the three numeric components (coerced versions carry no prerelease
part). -/
def semverLtB (a b : SemVer) : Bool :=
  decide (a.major < b.major) ||
    (a.major == b.major &&
      (decide (a.minor < b.minor) || (a.minor == b.minor && decide (a.patch < b.patch))))

/-- Numeric value of a list of decimal digit characters. -/
def parseDigits (ds : List Char) : Nat :=
  ds.foldl (fun n c => 10 * n + (c.toNat - 48)) 0

/-- First maximal run of decimal digits in the character list, returned
with the characters that follow the run; none when the list has no
digit. -/
def firstNumber : List Char → Option (Nat × List Char)
  | [] => none
  | c :: cs =>
    if c.isDigit then
      some (parseDigits ((c :: cs).takeWhile Char.isDigit), (c :: cs).dropWhile Char.isDigit)
    else firstNumber cs

/-- A dot immediately followed by a digit run, returned with the
characters after the run; none otherwise. -/
def numberAfterDot : List Char → Option (Nat × List Char)
  | '.' :: c :: cs =>
    if c.isDigit then
      some (parseDigits ((c :: cs).takeWhile Char.isDigit), (c :: cs).dropWhile Char.isDigit)
    else none
  | _ => none

/-- Modelled from the spec: coerce of the external semver library, which
extracts from free vendor text the first number as the major component,
then an optional dot-number as minor and another as patch, defaulting the
missing components to zero; it returns none when the string contains no
parsable number at all.  The per-component sixteen-digit cap of the
library is not modelled. -/
def coerce (s : String) : Option SemVer :=
  match firstNumber s.data with
  | none => none
  | some (maj, r1) =>
    match numberAfterDot r1 with
    | none => some ⟨maj, 0, 0⟩
    | some (mino, r2) =>
      match numberAfterDot r2 with
      | none => some ⟨maj, mino, 0⟩
      | some (pat, _) => some ⟨maj, mino, pat⟩

/-- The minimum-version string literal chosen at line 56 of check-db.js. -/
def minVersionString (databaseType : String) : String :=
  if databaseType == "postgresql" then "9.4.0" else "5.7.0"

/-- The parsed form of the minimum-version string: 9.4.0 for postgresql
and 5.7.0 for every other database type. -/
def minVersionSemVer (databaseType : String) : SemVer :=
  if databaseType == "postgresql" then ⟨9, 4, 0⟩ else ⟨5, 7, 0⟩

/-- The message of the incompatible-version error thrown at lines 59 to
61 of check-db.js. -/
def incompatibleMessage (databaseType : String) : String :=
  "Database version is not compatible. Please upgrade " ++ databaseType ++
    " version to " ++ minVersionString databaseType ++ " or greater"

/-- Modelled from the spec: the message of the TypeError raised by the
semver library when semver.lt is applied to null, which is what
semver.valid(semver.coerce(v)) evaluates to for an unparseable version
string. -/
def invalidVersionMessage : String := "Invalid version: null"

/-- Embeds checkDatabaseVersion, lines 51 to 65 of check-db.js, as a
function of the connection url and the version string reported by the
engine.  Except.ok is the success path; Except.error carries the message
of the error the function raises. -/
def checkDatabaseVersion (url versionReported : String) : Except String Unit :=
  match coerce versionReported with
  | none => Except.error invalidVersionMessage
  | some v =>
    let databaseType := getDatabaseType url
    if semverLtB v (minVersionSemVer databaseType) then
      Except.error (incompatibleMessage databaseType)
    else Except.ok ()

/-- The cutoff date of the v1 ledger query at line 71 of check-db.js,
2023-04-17, in the yyyymmdd timestamp encoding. -/
def v1CutoffDate : Nat := 20230417

/-- One run worth of external inputs to the pipeline: the configuration,
the outcome of each fallible collaborator call, and the initial database
state.  For each Option String field, none means the call succeeds and
some msg means it fails with message msg. -/
structure World where
  databaseUrl : Option String
  connectError : Option String
  versionReported : String
  v1QueryFails : Bool
  fixEnv : FixEnv
  skipMigration : Bool
  applyError : Option String
  db : DbState

/-- The state the pipeline threads between steps: whether the shared
prisma client currently holds an open connection, and the database
state.  The client connects lazily: any query or statement opens the
connection when it is closed. -/
structure PipeState where
  conn : Bool
  db : DbState

/-- How one step of the driver loop ends: a normal return, a raised error
with its message, or a direct call of process.exit with the given code
from inside the step. -/
inductive StepExit where
  | ok
  | threw (msg : String)
  | exited (code : Nat)
deriving DecidableEq

/-- A named pipeline step. -/
structure PipeStep where
  name : String
  run : World → PipeState → PipeState × StepExit

/-- Embeds checkEnv, lines 33 to 39: throw when DATABASE_URL is not
defined. -/
def checkEnvStep : PipeStep :=
  ⟨"checkEnv", fun w ps =>
    match w.databaseUrl with
    | none => (ps, StepExit.threw "DATABASE_URL is not defined.")
    | some _ => (ps, StepExit.ok)⟩

/-- Embeds checkConnection, lines 41 to 49: open the connection, wrapping
a driver failure in a new error message. -/
def checkConnectionStep : PipeStep :=
  ⟨"checkConnection", fun w ps =>
    match w.connectError with
    | some m => (ps, StepExit.threw ("Unable to connect to the database: " ++ m))
    | none => ({ ps with conn := true }, StepExit.ok)⟩

/-- Embeds checkDatabaseVersion as a pipeline step: the version query
opens the connection, then the version logic of checkDatabaseVersion
runs on the reported string. -/
def checkDatabaseVersionStep : PipeStep :=
  ⟨"checkDatabaseVersion", fun w ps =>
    let ps2 : PipeState := { ps with conn := true }
    match checkDatabaseVersion (w.databaseUrl.getD "") w.versionReported with
    | Except.error m => (ps2, StepExit.threw m)
    | Except.ok _ => (ps2, StepExit.ok)⟩

/-- Embeds checkV1Tables, lines 67 to 82: query the ledger for rows whose
started_at predates the v1 cutoff; when the query itself fails the error
is swallowed and the step succeeds; when any row matches, the step calls
process.exit(1) directly.  Either way the query opens the connection. -/
def checkV1TablesStep : PipeStep :=
  ⟨"checkV1Tables", fun w ps =>
    let ps2 : PipeState := { ps with conn := true }
    if w.v1QueryFails then (ps2, StepExit.ok)
    else
      if 0 < (ps.db.migrations.filter (fun m => decide (m.started_at < v1CutoffDate))).length then
        (ps2, StepExit.exited 1)
      else (ps2, StepExit.ok)⟩

/-- Embeds fixMigrationState as a pipeline step: its first query opens
the connection; a returned boolean is a normal step return and a raised
error is a thrown step. -/
def fixMigrationStateStep : PipeStep :=
  ⟨"fixMigrationState", fun w ps =>
    match fixMigrationState w.fixEnv ps.db with
    | (db2, Except.ok _) => (⟨true, db2⟩, StepExit.ok)
    | (db2, Except.error m) => (⟨true, db2⟩, StepExit.threw m)⟩

/-- Embeds applyMigration, lines 209 to 215: skipped entirely under
SKIP_DB_MIGRATION, otherwise the external migrate tool either succeeds
or throws; it does not use the prisma connection. -/
def applyMigrationStep : PipeStep :=
  ⟨"applyMigration", fun w ps =>
    if w.skipMigration then (ps, StepExit.ok)
    else
      match w.applyError with
      | some m => (ps, StepExit.threw m)
      | none => (ps, StepExit.ok)⟩

/-- Events observable in a pipeline run: a step beginning, recorded with
whether the connection is open at that moment, a disconnect of the
prisma client, and a process exit with its code. -/
inductive Ev where
  | step (name : String) (connAtStart : Bool)
  | disconnect
  | exited (code : Nat)
deriving DecidableEq

/-- Outcome of a pipeline run: the event trace, whether the connection is
still open when the process ends, and the exit code (0 for a run that
reaches the end of the loop). -/
structure RunResult where
  trace : List Ev
  connAtEnd : Bool
  exitCode : Nat
deriving DecidableEq

/-- Embeds the driver loop of lines 217 to 239 of check-db.js.  Each
iteration awaits the step inside try, marks err on a caught error, and in
finally disconnects the client and exits with code 1 when err is set.  A
step that calls process.exit directly ends the process at once: the
finally block of the driver never resumes, so no disconnect happens on
that path. -/
def runFrom (w : World) : List PipeStep → PipeState → RunResult
  | [], ps => ⟨[], ps.conn, 0⟩
  | st :: rest, ps =>
    match st.run w ps with
    | (ps2, StepExit.exited c) => ⟨[Ev.step st.name ps.conn, Ev.exited c], ps2.conn, c⟩
    | (_, StepExit.threw _) =>
      ⟨[Ev.step st.name ps.conn, Ev.disconnect, Ev.exited 1], false, 1⟩
    | (ps2, StepExit.ok) =>
      let r := runFrom w rest ⟨false, ps2.db⟩
      ⟨Ev.step st.name ps.conn :: Ev.disconnect :: r.trace, r.connAtEnd, r.exitCode⟩

/-- The six steps of the pipeline in their declared order. -/
def pipelineSteps : List PipeStep :=
  [checkEnvStep, checkConnectionStep, checkDatabaseVersionStep, checkV1TablesStep,
    fixMigrationStateStep, applyMigrationStep]

/-- A whole pipeline run from a closed connection and the initial
database state of the world. -/
def runMain (w : World) : RunResult :=
  runFrom w pipelineSteps ⟨false, w.db⟩

/-- Does the run of the given world reach checkV1Tables with its query
succeeding and a pre-cutoff ledger row present, which is exactly the
condition under which checkV1Tables calls process.exit(1) directly. -/
def v1HardStop (w : World) : Bool :=
  match w.databaseUrl with
  | none => false
  | some u =>
    w.connectError.isNone &&
      (match checkDatabaseVersion u w.versionReported with
       | Except.ok _ => true
       | Except.error _ => false) &&
      !w.v1QueryFails &&
      decide (0 < (w.db.migrations.filter (fun m => decide (m.started_at < v1CutoffDate))).length)

/-- The ledger rows whose migration_name differs from the target
identity, in ledger order. -/
def otherMigrations (s : DbState) : List MigrationRecord :=
  s.migrations.filter (fun m => !(m.migration_name == targetMigration))

/-! Concrete inputs used by witnesses and counterexamples. -/

/-- A valid-applied ledger row for the target migration. -/
def sampleValidRecord : MigrationRecord :=
  ⟨"rec1", targetChecksum, targetMigration, 20230501, some 20230501, none, 1, ""⟩

/-- A ledger row of another migration whose started_at predates the v1
cutoff, marking a legacy database. -/
def sampleLegacyRecord : MigrationRecord :=
  ⟨"rec0", "c0", "01_init", 20230401, some 20230401, none, 1, ""⟩

/-- A consistent database: hostname column present and one valid-applied
target row. -/
def sConsistent : DbState := ⟨[("website_event", "hostname")], [sampleValidRecord]⟩

/-- A database with neither the hostname column nor any ledger row. -/
def sEmptyDb : DbState := ⟨[], []⟩

/-- A database whose hostname column was added out of band: the column is
present but the ledger is empty. -/
def sColOnly : DbState := ⟨[("website_event", "hostname")], []⟩

/-- A fix environment in which every statement succeeds. -/
def envNoFault : FixEnv := ⟨none, none, none, none, none, none, none, "id1", 20240101⟩

/-- A fix environment in which ALTER TABLE rejects with an already-exists
message and both recovery statements succeed. -/
def envRace : FixEnv :=
  ⟨none, none, none, some "column hostname of relation website_event already exists",
    none, none, none, "id1", 20240101⟩

/-- A fix environment in which ALTER TABLE rejects with an already-exists
message and the recovery DELETE also fails. -/
def envDoubleFault : FixEnv :=
  ⟨none, none, none, some "column hostname of relation website_event already exists",
    none, some "connection lost", none, "id1", 20240101⟩

/-- A fix environment whose first query rejects with an unrelated
message. -/
def envOtherFault : FixEnv :=
  ⟨some "connection reset", none, none, none, none, none, none, "id1", 20240101⟩

/-- A run in which every step succeeds. -/
def wAllGood : World :=
  ⟨some "postgres://localhost/db", none, "14.2", false, envNoFault, false, none, sConsistent⟩

/-- A run whose ledger holds a pre-cutoff row: the legacy detector
hard-stops it. -/
def wLegacy : World :=
  ⟨some "postgres://localhost/db", none, "14.2", false, envNoFault, false, none,
    ⟨[("website_event", "hostname")], [sampleLegacyRecord]⟩⟩

/-- A run in which the repair hits the shadowed error call: ALTER rejects
with an already-exists message and the recovery DELETE fails. -/
def wShadowBug : World :=
  ⟨some "postgres://localhost/db", none, "14.2", false, envDoubleFault, false, none, sEmptyDb⟩

/-- A run in which the repair fails with an unrelated error and returns
false. -/
def wRepairFalse : World :=
  ⟨some "postgres://localhost/db", none, "14.2", false, envOtherFault, false, none, sConsistent⟩

/-! Helper lemmas about the sort used by existingMigrations. -/

lemma insertDesc_perm (m : MigrationRecord) (l : List MigrationRecord) :
    (insertDesc m l).Perm (m :: l) := by
  induction l with
  | nil => simp [insertDesc]
  | cons x xs ih =>
    simp only [insertDesc]
    split
    · exact List.Perm.refl _
    · exact (ih.cons x).trans (List.Perm.swap m x xs)

lemma sortByStartedDesc_perm (l : List MigrationRecord) :
    (sortByStartedDesc l).Perm l := by
  induction l with
  | nil => exact List.Perm.refl _
  | cons x xs ih =>
    have hs : sortByStartedDesc (x :: xs) = insertDesc x (sortByStartedDesc xs) := rfl
    rw [hs]
    exact (insertDesc_perm x _).trans (ih.cons x)

lemma existingMigrations_any (s : DbState) (p : MigrationRecord → Bool) :
    (existingMigrations s).any p = (targetRecords s).any p := by
  have h := sortByStartedDesc_perm (targetRecords s)
  rw [Bool.eq_iff_iff, List.any_eq_true, List.any_eq_true]
  constructor
  · rintro ⟨x, hx, hp⟩
    exact ⟨x, h.mem_iff.mp hx, hp⟩
  · rintro ⟨x, hx, hp⟩
    exact ⟨x, h.mem_iff.mpr hx, hp⟩

lemma existingMigrations_length (s : DbState) :
    (existingMigrations s).length = (targetRecords s).length :=
  (sortByStartedDesc_perm (targetRecords s)).length_eq

/-! Helper lemmas for the frame property of the repair step. -/

lemma otherMigrations_deleteTarget (s : DbState) :
    otherMigrations (deleteTarget s) = otherMigrations s := by
  simp [otherMigrations, deleteTarget, List.filter_filter]

lemma otherMigrations_insertTarget (i : String) (n : Nat) (s : DbState) :
    otherMigrations (insertTarget i n s) = otherMigrations s := by
  simp [otherMigrations, insertTarget, newMigrationRecord, List.filter_append]

lemma fixCatch_frame (env : FixEnv) (s : DbState) (m : String) :
    otherMigrations (fixCatch env s m).1 = otherMigrations s ∧
      (fixCatch env s m).1.columns = s.columns := by
  unfold fixCatch
  split
  · cases env.del2 with
    | some m2 => exact ⟨rfl, rfl⟩
    | none =>
      cases env.ins2 with
      | some m2 => exact ⟨otherMigrations_deleteTarget s, rfl⟩
      | none =>
        refine ⟨?_, rfl⟩
        rw [otherMigrations_insertTarget, otherMigrations_deleteTarget]
  · exact ⟨rfl, rfl⟩

lemma fixInsertStep_frame (env : FixEnv) (s : DbState) :
    otherMigrations (fixInsertStep env s).1 = otherMigrations s ∧
      (fixInsertStep env s).1.columns = s.columns := by
  unfold fixInsertStep
  cases env.ins1 with
  | some m => exact fixCatch_frame env s m
  | none => exact ⟨otherMigrations_insertTarget _ _ s, rfl⟩

lemma fixAlterStep_frame (env : FixEnv) (s : DbState) (b : Bool) :
    otherMigrations (fixAlterStep env s b).1 = otherMigrations s ∧
      ((fixAlterStep env s b).1.columns = s.columns ∨
        (fixAlterStep env s b).1.columns = s.columns ++ [("website_event", "hostname")]) := by
  unfold fixAlterStep
  cases b with
  | true =>
    obtain ⟨h1, h2⟩ := fixInsertStep_frame env s
    exact ⟨h1, Or.inl h2⟩
  | false =>
    cases env.alter with
    | some m =>
      obtain ⟨h1, h2⟩ := fixCatch_frame env s m
      exact ⟨h1, Or.inl h2⟩
    | none =>
      obtain ⟨h1, h2⟩ := fixInsertStep_frame env (addHostnameColumn s)
      refine ⟨h1.trans rfl, Or.inr ?_⟩
      show (fixInsertStep env (addHostnameColumn s)).1.columns = s.columns ++ [("website_event", "hostname")]
      rw [h2]
      rfl

lemma fixClearStep_frame (env : FixEnv) (s : DbState) (ex : List MigrationRecord) (b : Bool) :
    otherMigrations (fixClearStep env s ex b).1 = otherMigrations s ∧
      ((fixClearStep env s ex b).1.columns = s.columns ∨
        (fixClearStep env s ex b).1.columns = s.columns ++ [("website_event", "hostname")]) := by
  unfold fixClearStep
  split
  · cases env.del1 with
    | some m =>
      obtain ⟨h1, h2⟩ := fixCatch_frame env s m
      exact ⟨h1, Or.inl h2⟩
    | none =>
      obtain ⟨h1, h2⟩ := fixAlterStep_frame env (deleteTarget s) b
      refine ⟨h1.trans (otherMigrations_deleteTarget s), ?_⟩
      rcases h2 with h2 | h2
      · exact Or.inl h2
      · exact Or.inr h2
  · exact fixAlterStep_frame env s b

/-! Helper lemmas about targetRecords and the column fact. -/

lemma targetRecords_deleteTarget (s : DbState) : targetRecords (deleteTarget s) = [] := by
  simp [targetRecords, deleteTarget, List.filter_filter]

lemma targetRecords_insertTarget (i : String) (n : Nat) (s : DbState) :
    targetRecords (insertTarget i n s) = targetRecords s ++ [newMigrationRecord i n] := by
  simp [targetRecords, insertTarget, List.filter_append, newMigrationRecord, targetMigration]

lemma hostnameColumnExists_addHostnameColumn (s : DbState) :
    hostnameColumnExists (addHostnameColumn s) = true := by
  simp [hostnameColumnExists, addHostnameColumn]

/-- When both initial queries succeed, fixMigrationState reduces to the
early-return test followed by the repair chain. -/
lemma fixMigrationState_eq_of_queries_ok (env : FixEnv) (s : DbState)
    (hq1 : env.q1 = none) (hq2 : env.q2 = none) :
    fixMigrationState env s =
      if hostnameColumnExists s && (existingMigrations s).any validApplied
      then (s, Except.ok true)
      else fixClearStep env s (existingMigrations s) (hostnameColumnExists s) := by
  unfold fixMigrationState
  rw [hq1, hq2]

/-- C1: Idempotence of the repair step: on every database state in which
the hostname column exists on website_event and at least one ledger row
for the migration 09_update_hostname_region is valid-applied, a call of
fixMigrationState whose two read queries succeed performs no ledger or
schema mutation and returns true, and therefore a second such call on the
resulting state again leaves the state unchanged and returns true. -/
theorem fixMigrationState_consistent_idempotent (env env2 : FixEnv) (s : DbState)
    (hq1 : env.q1 = none) (hq2 : env.q2 = none)
    (hq1b : env2.q1 = none) (hq2b : env2.q2 = none)
    (hcol : hostnameColumnExists s = true)
    (hvalid : (targetRecords s).any validApplied = true) :
    fixMigrationState env s = (s, Except.ok true) ∧
      fixMigrationState env2 (fixMigrationState env s).1 = (s, Except.ok true) := by
  have hany : (existingMigrations s).any validApplied = true := by
    rw [existingMigrations_any]
    exact hvalid
  have key : ∀ e : FixEnv, e.q1 = none → e.q2 = none →
      fixMigrationState e s = (s, Except.ok true) := by
    intro e he1 he2
    rw [fixMigrationState_eq_of_queries_ok e s he1 he2]
    simp [hany, hcol]
  refine ⟨key env hq1 hq2, ?_⟩
  rw [key env hq1 hq2]
  exact key env2 hq1b hq2b

/-- C1 witness: the consistent sample state with fault-free queries. -/
theorem fixMigrationState_consistent_idempotent_witness :
    fixMigrationState envNoFault sConsistent = (sConsistent, Except.ok true) ∧
      fixMigrationState envNoFault (fixMigrationState envNoFault sConsistent).1 =
        (sConsistent, Except.ok true) :=
  fixMigrationState_consistent_idempotent envNoFault envNoFault sConsistent
    rfl rfl rfl rfl (by decide) (by decide)

/-- C2: Repair convergence: from every state in which the hostname column
is absent and the ledger holds no row for the target migration, one call
of fixMigrationState with fault-free statements ends with the column
present and exactly one ledger row for the target identity, namely the
freshly inserted row, which is valid-applied with applied_steps_count
one. -/
theorem fixMigrationState_converges_from_absent (env : FixEnv) (s : DbState)
    (hq1 : env.q1 = none) (hq2 : env.q2 = none)
    (hal : env.alter = none) (hins : env.ins1 = none)
    (hcol : hostnameColumnExists s = false)
    (hledger : targetRecords s = []) :
    (fixMigrationState env s).2 = Except.ok true ∧
      hostnameColumnExists (fixMigrationState env s).1 = true ∧
      targetRecords (fixMigrationState env s).1 = [newMigrationRecord env.newId env.now] ∧
      validApplied (newMigrationRecord env.newId env.now) = true ∧
      (newMigrationRecord env.newId env.now).applied_steps_count = 1 := by
  have hlen : (existingMigrations s).length = 0 := by
    rw [existingMigrations_length, hledger]
    rfl
  have heq : fixMigrationState env s =
      (insertTarget env.newId env.now (addHostnameColumn s), Except.ok true) := by
    rw [fixMigrationState_eq_of_queries_ok env s hq1 hq2]
    unfold fixClearStep fixAlterStep fixInsertStep
    simp [hcol, hlen, hal, hins]
  rw [heq]
  refine ⟨rfl, ?_, ?_, rfl, rfl⟩
  · exact hostnameColumnExists_addHostnameColumn s
  · rw [targetRecords_insertTarget]
    rw [show targetRecords (addHostnameColumn s) = targetRecords s from rfl, hledger]
    rfl

/-- C2 witness: the empty sample database with fault-free statements. -/
theorem fixMigrationState_converges_from_absent_witness :
    (fixMigrationState envNoFault sEmptyDb).2 = Except.ok true ∧
      hostnameColumnExists (fixMigrationState envNoFault sEmptyDb).1 = true ∧
      targetRecords (fixMigrationState envNoFault sEmptyDb).1 =
        [newMigrationRecord envNoFault.newId envNoFault.now] ∧
      validApplied (newMigrationRecord envNoFault.newId envNoFault.now) = true ∧
      (newMigrationRecord envNoFault.newId envNoFault.now).applied_steps_count = 1 :=
  fixMigrationState_converges_from_absent envNoFault sEmptyDb
    rfl rfl rfl rfl (by decide) (by decide)

/-- C3: Repair convergence under race.  First part: from every state in
which the hostname column is already present but no ledger row for the
target migration is valid-applied, one call with fault-free statements
ends with exactly one ledger row for the target identity, the fresh
valid-applied row, and returns true; the ALTER outcome of the environment
is never consulted, so no duplicate-column error can arise on this path.
Second part: when the column was observed absent and the ALTER statement
rejects with a message containing already exists or duplicate column,
while both recovery statements succeed, the failure is absorbed: the
target rows are cleared again, the fresh row is inserted, and the call
returns true. -/
theorem fixMigrationState_converges_under_race :
    (∀ (env : FixEnv) (s : DbState),
        env.q1 = none → env.q2 = none → env.del1 = none → env.ins1 = none →
        hostnameColumnExists s = true →
        (targetRecords s).any validApplied = false →
        (fixMigrationState env s).2 = Except.ok true ∧
          targetRecords (fixMigrationState env s).1 =
            [newMigrationRecord env.newId env.now] ∧
          hostnameColumnExists (fixMigrationState env s).1 = true ∧
          validApplied (newMigrationRecord env.newId env.now) = true) ∧
    (∀ (env : FixEnv) (s : DbState) (msg : String),
        env.q1 = none → env.q2 = none → env.del1 = none →
        env.alter = some msg →
        (jsIncludes msg "already exists" || jsIncludes msg "duplicate column") = true →
        env.del2 = none → env.ins2 = none →
        hostnameColumnExists s = false →
        (fixMigrationState env s).2 = Except.ok true ∧
          targetRecords (fixMigrationState env s).1 =
            [newMigrationRecord env.newId env.now] ∧
          validApplied (newMigrationRecord env.newId env.now) = true) := by
  constructor
  · intro env s hq1 hq2 hdel hins hcol hvalid
    have hany : (existingMigrations s).any validApplied = false := by
      rw [existingMigrations_any]
      exact hvalid
    by_cases hnil : targetRecords s = []
    · have hlen : (existingMigrations s).length = 0 := by
        rw [existingMigrations_length, hnil]
        rfl
      have heq : fixMigrationState env s =
          (insertTarget env.newId env.now s, Except.ok true) := by
        rw [fixMigrationState_eq_of_queries_ok env s hq1 hq2]
        unfold fixClearStep fixAlterStep fixInsertStep
        simp [hany, hcol, hlen, hins]
      rw [heq]
      refine ⟨rfl, ?_, hcol, rfl⟩
      rw [targetRecords_insertTarget, hnil]
      rfl
    · have hlen : 0 < (existingMigrations s).length := by
        rw [existingMigrations_length]
        exact List.length_pos.mpr hnil
      have heq : fixMigrationState env s =
          (insertTarget env.newId env.now (deleteTarget s), Except.ok true) := by
        rw [fixMigrationState_eq_of_queries_ok env s hq1 hq2]
        unfold fixClearStep fixAlterStep fixInsertStep
        simp [hany, hcol, hlen, hdel, hins]
      rw [heq]
      refine ⟨rfl, ?_, hcol, rfl⟩
      rw [targetRecords_insertTarget, targetRecords_deleteTarget]
      rfl
  · intro env s msg hq1 hq2 hdel hal hmatch hd2 hi2 hcol
    by_cases hnil : targetRecords s = []
    · have hlen : (existingMigrations s).length = 0 := by
        rw [existingMigrations_length, hnil]
        rfl
      have heq : fixMigrationState env s =
          (insertTarget env.newId env.now (deleteTarget s), Except.ok true) := by
        rw [fixMigrationState_eq_of_queries_ok env s hq1 hq2]
        unfold fixClearStep fixAlterStep fixCatch
        simp [hcol, hlen, hal, hmatch, hd2, hi2]
      rw [heq]
      refine ⟨rfl, ?_, rfl⟩
      rw [targetRecords_insertTarget, targetRecords_deleteTarget]
      rfl
    · have hlen : 0 < (existingMigrations s).length := by
        rw [existingMigrations_length]
        exact List.length_pos.mpr hnil
      have heq : fixMigrationState env s =
          (insertTarget env.newId env.now (deleteTarget (deleteTarget s)), Except.ok true) := by
        rw [fixMigrationState_eq_of_queries_ok env s hq1 hq2]
        unfold fixClearStep fixAlterStep fixCatch
        simp [hcol, hlen, hdel, hal, hmatch, hd2, hi2]
      rw [heq]
      refine ⟨rfl, ?_, rfl⟩
      rw [targetRecords_insertTarget, targetRecords_deleteTarget]
      rfl

/-- C3 witness: part one at the column-only sample state, part two at the
empty state with the ALTER statement rejecting with an already-exists
message. -/
theorem fixMigrationState_converges_under_race_witness :
    ((fixMigrationState envNoFault sColOnly).2 = Except.ok true ∧
        targetRecords (fixMigrationState envNoFault sColOnly).1 =
          [newMigrationRecord envNoFault.newId envNoFault.now] ∧
        hostnameColumnExists (fixMigrationState envNoFault sColOnly).1 = true ∧
        validApplied (newMigrationRecord envNoFault.newId envNoFault.now) = true) ∧
      ((fixMigrationState envRace sEmptyDb).2 = Except.ok true ∧
        targetRecords (fixMigrationState envRace sEmptyDb).1 =
          [newMigrationRecord envRace.newId envRace.now] ∧
        validApplied (newMigrationRecord envRace.newId envRace.now) = true) :=
  ⟨fixMigrationState_converges_under_race.1 envNoFault sColOnly
      rfl rfl rfl rfl (by decide) (by decide),
    fixMigrationState_converges_under_race.2 envRace sEmptyDb
      "column hostname of relation website_event already exists"
      rfl rfl rfl rfl (by decide) rfl rfl (by decide)⟩

/-- C10: Frame property of the repair step: on every path, including each
catch path, fixMigrationState deletes or inserts only ledger rows whose
migration_name is the target identity, leaving the sublist of rows of
every other migration unchanged, and either leaves the schema columns
unchanged or extends them by exactly the hostname column of
website_event. -/
theorem fixMigrationState_frame (env : FixEnv) (s : DbState) :
    otherMigrations (fixMigrationState env s).1 = otherMigrations s ∧
      ((fixMigrationState env s).1.columns = s.columns ∨
        (fixMigrationState env s).1.columns =
          s.columns ++ [("website_event", "hostname")]) := by
  cases hq1 : env.q1 with
  | some m =>
    have hred : fixMigrationState env s = fixCatch env s m := by
      unfold fixMigrationState
      rw [hq1]
    rw [hred]
    obtain ⟨a, b⟩ := fixCatch_frame env s m
    exact ⟨a, Or.inl b⟩
  | none =>
    cases hq2 : env.q2 with
    | some m =>
      have hred : fixMigrationState env s = fixCatch env s m := by
        unfold fixMigrationState
        rw [hq1, hq2]
      rw [hred]
      obtain ⟨a, b⟩ := fixCatch_frame env s m
      exact ⟨a, Or.inl b⟩
    | none =>
      rw [fixMigrationState_eq_of_queries_ok env s hq1 hq2]
      split
      · exact ⟨rfl, Or.inl rfl⟩
      · exact fixClearStep_frame env s _ _

/-- C7: Version gate thresholds: for every connection url and every
version string that coerces to a triple v, checkDatabaseVersion throws
the incompatible-version error naming the database type and its minimum
exactly when v is below the kind-specific minimum, 9.4.0 for postgresql
and 5.7.0 for every other kind, and passes exactly when v is at or above
it; the postgres scheme is normalized to postgresql, choosing the
postgresql minimum. -/
theorem checkDatabaseVersion_thresholds (url verStr : String) (v : SemVer)
    (hc : coerce verStr = some v) :
    (checkDatabaseVersion url verStr =
        Except.error (incompatibleMessage (getDatabaseType url)) ↔
      semverLtB v (minVersionSemVer (getDatabaseType url)) = true) ∧
    (checkDatabaseVersion url verStr = Except.ok () ↔
      semverLtB v (minVersionSemVer (getDatabaseType url)) = false) ∧
    (∀ rest : String, getDatabaseType ("postgres:" ++ rest) = "postgresql") := by
  refine ⟨?_, ?_, ?_⟩
  · cases hlt : semverLtB v (minVersionSemVer (getDatabaseType url)) with
    | true => simp [checkDatabaseVersion, hc, hlt]
    | false => simp [checkDatabaseVersion, hc, hlt]
  · cases hlt : semverLtB v (minVersionSemVer (getDatabaseType url)) with
    | true => simp [checkDatabaseVersion, hc, hlt]
    | false => simp [checkDatabaseVersion, hc, hlt]
  · intro rest
    cases rest with
    | mk cs => rfl

/-- C7 witness: a postgres url with the too-old version 9.3.2. -/
theorem checkDatabaseVersion_thresholds_witness :
    checkDatabaseVersion "postgres://localhost/db" "9.3.2" =
      Except.error (incompatibleMessage (getDatabaseType "postgres://localhost/db")) :=
  (checkDatabaseVersion_thresholds "postgres://localhost/db" "9.3.2" ⟨9, 3, 2⟩ rfl).1.mpr
    (by decide)

lemma firstNumber_eq_none_iff (l : List Char) :
    firstNumber l = none ↔ l.any Char.isDigit = false := by
  induction l with
  | nil => simp [firstNumber]
  | cons c cs ih =>
    cases hc : c.isDigit with
    | true => simp [firstNumber, hc]
    | false => simp [firstNumber, hc, ih]

/-- C8 counterexample: a vendor version string with no digits is not
coerced to any major.minor.patch triple; checkDatabaseVersion fails with
the invalid-version TypeError of the semver library, which is neither a
pass nor the incompatible-version error, refuting the claim that the
coercion is total and that only the incompatible-version error can
arise. -/
theorem checkDatabaseVersion_unparseable_counterexample :
    coerce "experimental" = none ∧
      checkDatabaseVersion "postgres://localhost/db" "experimental" =
        Except.error invalidVersionMessage ∧
      invalidVersionMessage ≠
        incompatibleMessage (getDatabaseType "postgres://localhost/db") ∧
      checkDatabaseVersion "postgres://localhost/db" "experimental" ≠ Except.ok () := by
  refine ⟨rfl, rfl, by decide, ?_⟩
  intro h
  exact Except.noConfusion h

/-- C8 amended: for every version string containing at least one decimal
digit, coercion yields a triple and checkDatabaseVersion completes the
comparison, either passing or failing with the incompatible-version
error; for a string with no digit, coercion yields nothing and
checkDatabaseVersion fails with the invalid-version TypeError instead of
completing the comparison. -/
theorem checkDatabaseVersion_coercion_amended (url verStr : String) :
    (verStr.data.any Char.isDigit = true →
      ∃ v, coerce verStr = some v ∧
        (checkDatabaseVersion url verStr = Except.ok () ∨
          checkDatabaseVersion url verStr =
            Except.error (incompatibleMessage (getDatabaseType url)))) ∧
    (verStr.data.any Char.isDigit = false →
      checkDatabaseVersion url verStr = Except.error invalidVersionMessage) := by
  constructor
  · intro hdig
    have hf : firstNumber verStr.data ≠ none := by
      rw [ne_eq, firstNumber_eq_none_iff, hdig]
      simp
    obtain ⟨v, hv⟩ : ∃ v, coerce verStr = some v := by
      cases hfn : firstNumber verStr.data with
      | none => exact absurd hfn hf
      | some p =>
        obtain ⟨maj, r1⟩ := p
        cases h1 : numberAfterDot r1 with
        | none => exact ⟨⟨maj, 0, 0⟩, by simp [coerce, hfn, h1]⟩
        | some q =>
          obtain ⟨mino, r2⟩ := q
          cases h2 : numberAfterDot r2 with
          | none => exact ⟨⟨maj, mino, 0⟩, by simp [coerce, hfn, h1, h2]⟩
          | some r =>
            obtain ⟨pat, r3⟩ := r
            exact ⟨⟨maj, mino, pat⟩, by simp [coerce, hfn, h1, h2]⟩
    refine ⟨v, hv, ?_⟩
    cases hlt : semverLtB v (minVersionSemVer (getDatabaseType url)) with
    | true =>
      right
      simp [checkDatabaseVersion, hv, hlt]
    | false =>
      left
      simp [checkDatabaseVersion, hv, hlt]
  · intro hdig
    have hf : firstNumber verStr.data = none := (firstNumber_eq_none_iff _).mpr hdig
    unfold checkDatabaseVersion coerce
    rw [hf]

/-- C8 amended witness: a digit-bearing version string and a digit-free
one. -/
theorem checkDatabaseVersion_coercion_amended_witness :
    (∃ v, coerce "14.2" = some v ∧
        (checkDatabaseVersion "mysql://localhost/db" "14.2" = Except.ok () ∨
          checkDatabaseVersion "mysql://localhost/db" "14.2" =
            Except.error (incompatibleMessage (getDatabaseType "mysql://localhost/db")))) ∧
      checkDatabaseVersion "mysql://localhost/db" "nodigits" =
        Except.error invalidVersionMessage :=
  ⟨(checkDatabaseVersion_coercion_amended "mysql://localhost/db" "14.2").1 (by decide),
    (checkDatabaseVersion_coercion_amended "mysql://localhost/db" "nodigits").2 (by decide)⟩

/-! Helper lemmas about the driver loop. -/

lemma runFix_connAtEnd_false (w : World) (db : DbState) :
    (runFrom w [fixMigrationStateStep, applyMigrationStep] ⟨false, db⟩).connAtEnd = false := by
  rcases hfix : fixMigrationState w.fixEnv db with ⟨db2, r⟩
  cases r with
  | error m => simp [runFrom, fixMigrationStateStep, hfix]
  | ok b =>
    cases hskip : w.skipMigration with
    | true => simp [runFrom, fixMigrationStateStep, applyMigrationStep, hfix, hskip]
    | false =>
      cases ha : w.applyError with
      | some m =>
        simp [runFrom, fixMigrationStateStep, applyMigrationStep, hfix, hskip, ha]
      | none =>
        simp [runFrom, fixMigrationStateStep, applyMigrationStep, hfix, hskip, ha]

/-- C9: Legacy-schema detection gate: under a defined url, a successful
connection and a passing version check, the run terminates immediately
with exit code 1 and executes no step beyond checkV1Tables exactly when
the ledger query succeeds and some ledger row has started_at before the
2023-04-17 cutoff; when the query fails, or when no row predates the
cutoff, the error is suppressed and the run continues into the
fixMigrationState step. -/
theorem checkV1Tables_legacy_gate (w : World) (u : String)
    (henv : w.databaseUrl = some u)
    (hconn : w.connectError = none)
    (hver : checkDatabaseVersion u w.versionReported = Except.ok ()) :
    ((w.v1QueryFails = false ∧
        0 < (w.db.migrations.filter
              (fun m => decide (m.started_at < v1CutoffDate))).length) →
      runMain w =
        ⟨[Ev.step "checkEnv" false, Ev.disconnect, Ev.step "checkConnection" false,
            Ev.disconnect, Ev.step "checkDatabaseVersion" false, Ev.disconnect,
            Ev.step "checkV1Tables" false, Ev.exited 1], true, 1⟩) ∧
    ((w.v1QueryFails = true ∨
        (w.db.migrations.filter
          (fun m => decide (m.started_at < v1CutoffDate))).length = 0) →
      Ev.step "fixMigrationState" false ∈ (runMain w).trace) := by
  constructor
  · rintro ⟨hq, hlen⟩
    simp [runMain, pipelineSteps, runFrom, checkEnvStep, checkConnectionStep,
      checkDatabaseVersionStep, checkV1TablesStep, henv, hconn, hver, hq, hlen]
  · intro h
    rcases hfix : fixMigrationState w.fixEnv w.db with ⟨db2, r⟩
    rcases h with hq | hlen
    · cases r with
      | error m =>
        simp [runMain, pipelineSteps, runFrom, checkEnvStep, checkConnectionStep,
          checkDatabaseVersionStep, checkV1TablesStep, fixMigrationStateStep,
          henv, hconn, hver, hq, hfix]
      | ok b =>
        simp [runMain, pipelineSteps, runFrom, checkEnvStep, checkConnectionStep,
          checkDatabaseVersionStep, checkV1TablesStep, fixMigrationStateStep,
          henv, hconn, hver, hq, hfix]
    · cases hq2 : w.v1QueryFails with
      | true =>
        cases r with
        | error m =>
          simp [runMain, pipelineSteps, runFrom, checkEnvStep, checkConnectionStep,
            checkDatabaseVersionStep, checkV1TablesStep, fixMigrationStateStep,
            henv, hconn, hver, hq2, hfix]
        | ok b =>
          simp [runMain, pipelineSteps, runFrom, checkEnvStep, checkConnectionStep,
            checkDatabaseVersionStep, checkV1TablesStep, fixMigrationStateStep,
            henv, hconn, hver, hq2, hfix]
      | false =>
        cases r with
        | error m =>
          simp [runMain, pipelineSteps, runFrom, checkEnvStep, checkConnectionStep,
            checkDatabaseVersionStep, checkV1TablesStep, fixMigrationStateStep,
            henv, hconn, hver, hq2, hlen, hfix]
        | ok b =>
          simp [runMain, pipelineSteps, runFrom, checkEnvStep, checkConnectionStep,
            checkDatabaseVersionStep, checkV1TablesStep, fixMigrationStateStep,
            henv, hconn, hver, hq2, hlen, hfix]

/-- C9 witness: the legacy sample run hard-stops with the exact four-step
trace, and the all-success run reaches the repair step. -/
theorem checkV1Tables_legacy_gate_witness :
    runMain wLegacy =
        ⟨[Ev.step "checkEnv" false, Ev.disconnect, Ev.step "checkConnection" false,
            Ev.disconnect, Ev.step "checkDatabaseVersion" false, Ev.disconnect,
            Ev.step "checkV1Tables" false, Ev.exited 1], true, 1⟩ ∧
      Ev.step "fixMigrationState" false ∈ (runMain wAllGood).trace :=
  ⟨(checkV1Tables_legacy_gate wLegacy "postgres://localhost/db" rfl rfl rfl).1
      ⟨rfl, by decide⟩,
    (checkV1Tables_legacy_gate wAllGood "postgres://localhost/db" rfl rfl rfl).2
      (Or.inr (by decide))⟩

/-- C5 counterexample: in the legacy sample run the process exits with
code 1 directly from inside checkV1Tables while the connection opened by
the ledger query is still open, refuting the claim that the connection
is disconnected before the process exits on every exit path. -/
theorem legacy_exit_leaves_connection_open :
    (runMain wLegacy).exitCode = 1 ∧ (runMain wLegacy).connAtEnd = true ∧
      (runMain wLegacy).trace.getLast? = some (Ev.exited 1) := by decide

/-- C5 amended: on every exit path that goes through the driver loop,
success or a caught fatal error, the connection is disconnected before
the process exits; only the legacy hard-stop path, which calls
process.exit from inside checkV1Tables and so bypasses the finally block
of the driver, ends the process with the connection still open, with
exit code 1. -/
theorem disconnect_on_every_loop_exit (w : World) :
    (v1HardStop w = false → (runMain w).connAtEnd = false) ∧
      (v1HardStop w = true →
        (runMain w).connAtEnd = true ∧ (runMain w).exitCode = 1) := by
  constructor
  · intro hns
    cases hdb : w.databaseUrl with
    | none => simp [runMain, pipelineSteps, runFrom, checkEnvStep, hdb]
    | some u =>
      cases hconn : w.connectError with
      | some m =>
        simp [runMain, pipelineSteps, runFrom, checkEnvStep, checkConnectionStep, hdb, hconn]
      | none =>
        cases hver : checkDatabaseVersion u w.versionReported with
        | error m =>
          simp [runMain, pipelineSteps, runFrom, checkEnvStep, checkConnectionStep,
            checkDatabaseVersionStep, hdb, hconn, hver]
        | ok x =>
          cases hq : w.v1QueryFails with
          | true =>
            have htail := runFix_connAtEnd_false w w.db
            simp [runMain, pipelineSteps, runFrom, checkEnvStep, checkConnectionStep,
              checkDatabaseVersionStep, checkV1TablesStep, hdb, hconn, hver, hq]
            exact htail
          | false =>
            by_cases hpos : 0 < (w.db.migrations.filter
                (fun m => decide (m.started_at < v1CutoffDate))).length
            · exfalso
              unfold v1HardStop at hns
              rw [hdb] at hns
              simp [hconn, hver, hq, hpos] at hns
            · have htail := runFix_connAtEnd_false w w.db
              simp [runMain, pipelineSteps, runFrom, checkEnvStep, checkConnectionStep,
                checkDatabaseVersionStep, checkV1TablesStep, hdb, hconn, hver, hq, hpos]
              exact htail
  · intro hs
    unfold v1HardStop at hs
    cases hdb : w.databaseUrl with
    | none =>
      rw [hdb] at hs
      exact absurd hs (by simp)
    | some u =>
      rw [hdb] at hs
      simp only [Bool.and_eq_true, Bool.not_eq_true', decide_eq_true_eq,
        Option.isNone_iff_eq_none] at hs
      obtain ⟨⟨⟨hconn, hver⟩, hq⟩, hlen⟩ := hs
      cases hver2 : checkDatabaseVersion u w.versionReported with
      | error m =>
        rw [hver2] at hver
        exact absurd hver (by simp)
      | ok x =>
        constructor
        · simp [runMain, pipelineSteps, runFrom, checkEnvStep, checkConnectionStep,
            checkDatabaseVersionStep, checkV1TablesStep, hdb, hconn, hver2, hq, hlen]
        · simp [runMain, pipelineSteps, runFrom, checkEnvStep, checkConnectionStep,
            checkDatabaseVersionStep, checkV1TablesStep, hdb, hconn, hver2, hq, hlen]

/-- C5 amended witness: the all-success run ends disconnected; the legacy
run ends with the connection open and exit code 1. -/
theorem disconnect_on_every_loop_exit_witness :
    (runMain wAllGood).connAtEnd = false ∧
      ((runMain wLegacy).connAtEnd = true ∧ (runMain wLegacy).exitCode = 1) :=
  ⟨(disconnect_on_every_loop_exit wAllGood).1 (by decide),
    (disconnect_on_every_loop_exit wLegacy).2 (by decide)⟩

/-- C6 counterexample: in the all-success sample run the driver
disconnects immediately after the successful connection probe and after
every later step, and the step following the probe begins with the
connection closed, refuting the claim that the connection remains open
for all subsequent steps. -/
theorem connection_not_persistent_counterexample :
    (runMain wAllGood).trace =
        [Ev.step "checkEnv" false, Ev.disconnect, Ev.step "checkConnection" false,
          Ev.disconnect, Ev.step "checkDatabaseVersion" false, Ev.disconnect,
          Ev.step "checkV1Tables" false, Ev.disconnect,
          Ev.step "fixMigrationState" false, Ev.disconnect,
          Ev.step "applyMigration" false, Ev.disconnect] ∧
      (runMain wAllGood).exitCode = 0 ∧
      Ev.step "checkDatabaseVersion" false ∈ (runMain wAllGood).trace := by decide

lemma runFrom_step_conn_false (w : World) (steps : List PipeStep) :
    ∀ ps : PipeState, ps.conn = false →
      ∀ n b, Ev.step n b ∈ (runFrom w steps ps).trace → b = false := by
  induction steps with
  | nil =>
    intro ps hps n b hmem
    simp [runFrom] at hmem
  | cons st rest ih =>
    intro ps hps n b hmem
    rcases hr : st.run w ps with ⟨ps2, ex⟩
    cases ex with
    | exited c =>
      simp [runFrom, hr] at hmem
      rw [hmem.2, hps]
    | threw m =>
      simp [runFrom, hr] at hmem
      rw [hmem.2, hps]
    | ok =>
      simp [runFrom, hr] at hmem
      rcases hmem with ⟨hn, hb⟩ | hmem
      · rw [hb, hps]
      · exact ih ⟨false, ps2.db⟩ rfl n b hmem

/-- C6 amended: after the connection probe succeeds the connection does
not remain open across steps: the per-iteration finally block of the
driver disconnects the client at the end of every step, so every step of
every run, including each step after the probe, begins with the
connection closed and re-opens it lazily on its first query. -/
theorem every_step_starts_disconnected (w : World) :
    ∀ n b, Ev.step n b ∈ (runMain w).trace → b = false :=
  runFrom_step_conn_false w pipelineSteps ⟨false, w.db⟩ rfl

/-- C6 amended witness: the final step of the all-success run begins with
the connection closed. -/
theorem every_step_starts_disconnected_witness : false = false :=
  every_step_starts_disconnected wAllGood "applyMigration" false (by decide)

/-- C4: the claim that every non-absorbed repair error is caught, logged
and turned into a false return fails on the code: on the path where a
caught already-exists error is followed by a failing recovery statement,
the catch parameter error of line 170 shadows the logging helper error,
so the call at line 197 raises a TypeError and fixMigrationState throws
instead of returning false; the driver then catches it, marks the run
failed and exits with code 1 before the apply step, against the source
comment saying not to throw.  On the unrelated-failure path the function
does return false and the run continues through the apply step with exit
code 0. -/
theorem fixMigrationState_recovery_failure_throws :
    fixMigrationState envDoubleFault sEmptyDb =
        (sEmptyDb, Except.error shadowedErrorCallMessage) ∧
      (runMain wShadowBug).exitCode = 1 ∧
      Ev.step "applyMigration" false ∉ (runMain wShadowBug).trace ∧
      (runMain wShadowBug).trace.getLast? = some (Ev.exited 1) ∧
      fixMigrationState envOtherFault sConsistent = (sConsistent, Except.ok false) ∧
      (runMain wRepairFalse).exitCode = 0 ∧
      Ev.step "applyMigration" false ∈ (runMain wRepairFalse).trace := by
  refine ⟨rfl, by decide, by decide, by decide, rfl, by decide, by decide⟩

end CheckDb
